import Mathlib

/-!
Verification of the allocation core of the tflite excerpt (src/allocation.h).

The file embeds the two concrete allocation classes, MMAPAllocation and
FileCopyAllocation, as pure Lean functions over an explicit system
environment.  The environment carries the contents of the named file (or
none when the path cannot be opened) together with fault injections for
each external call the constructors make: the file-status query (fstat),
the memory mapping request (mmap), the heap allocation (new), and the
buffered read (fread, whose delivered byte count models short reads).
Each constructor is translated statement by statement from the source;
the resulting state records the fields of the C++ object together with
the messages emitted through the error sink during construction.
-/

namespace Tflite

/-- Value of a pointer observable through base(): the null pointer, the
MAP_FAILED sentinel, or a readable region carrying its byte contents. -/
inductive Ptr where
  | null : Ptr
  | mapFailed : Ptr
  | region : List Nat → Ptr
  deriving DecidableEq, Repr

/-- A single quote character, used by the report format strings of
allocation.h. -/
def squote : String := String.singleton (Char.ofNat 39)

/-- Message of error_reporter_->Report("Could not open ...", filename)
at allocation.h:60 and allocation.h:96. -/
def couldNotOpenMsg (filename : String) : String :=
  "Could not open " ++ squote ++ filename ++ squote ++ "."

/-- Message of error_reporter_->Report("Mmap of ... failed.", filename)
at allocation.h:69. -/
def mmapFailedMsg (filename : String) : String :=
  "Mmap of " ++ squote ++ filename ++ squote ++ " failed."

/-- Message of error_reporter_->Report("Failed to get file size of ...",
filename) at allocation.h:103. -/
def fstatFailedMsg (filename : String) : String :=
  "Failed to get file size of " ++ squote ++ filename ++ squote ++ "."

/-- Message of error_reporter_->Report("Malloc of buffer to hold copy of
... failed.", filename) at allocation.h:109. -/
def mallocFailedMsg (filename : String) : String :=
  "Malloc of buffer to hold copy of " ++ squote ++ filename ++ squote ++ " failed."

/-- Message of error_reporter_->Report("Read of ... failed (too few bytes
read).", filename) at allocation.h:116. -/
def shortReadMsg (filename : String) : String :=
  "Read of " ++ squote ++ filename ++ squote ++ " failed (too few bytes read)."

/-- Environment of one construction: the file behind the path and the
outcome of each fallible external call the constructors perform. -/
structure SysEnv where
  /-- Contents of the file at the named path, or none when the path
  cannot be opened (open and fopen both fail). -/
  file : Option (List Nat)
  /-- Whether the file-status query on the open descriptor succeeds. -/
  fstatOk : Bool
  /-- The st_size value read from the stat buffer when the query failed:
  the buffer is left uninitialized, so the value is arbitrary. -/
  fstatGarbage : Nat
  /-- Whether the mmap request succeeds. -/
  mmapOk : Bool
  /-- Whether the heap allocation of the copy buffer yields a buffer. -/
  allocOk : Bool
  /-- Number of bytes the stream actually delivers to fread; a value
  below the file size models a short read. -/
  readAvail : Nat
  deriving DecidableEq, Repr

/-- Contents of a successful read-only shared mapping of `size` bytes
over a file holding `contents`: the file bytes up to `size`, zero-filled
past the end of the file. -/
def mmapRegion (contents : List Nat) (size : Nat) : List Nat :=
  contents.take size ++ List.replicate (size - contents.length) 0

/-- Fields of an MMAPAllocation object after construction, together with
the reports emitted through the error sink (allocation.h:80-84). -/
structure MMAPState where
  /-- mmap_fd_, the descriptor; -1 is the not-open sentinel. -/
  mmap_fd : Int
  /-- mmapped_buffer_; MAP_FAILED is the not-mapped sentinel. -/
  mmapped_buffer : Ptr
  /-- buffer_size_bytes_, default-initialized to 0. -/
  buffer_size_bytes : Nat
  /-- Messages emitted through error_reporter_ during construction. -/
  reports : List String
  deriving DecidableEq, Repr

/-- Constructor MMAPAllocation::MMAPAllocation (allocation.h:56-72).
Open the path read-only; on failure report and return with the MAP_FAILED
sentinel.  Then fstat the descriptor WITHOUT checking its result and take
st_size from the stat buffer (garbage when the query failed), then mmap
that many bytes; on mmap failure report and return. -/
def MMAPAllocation.construct (filename : String) (env : SysEnv) : MMAPState :=
  match env.file with
  | none =>
    { mmap_fd := -1
      mmapped_buffer := Ptr.mapFailed
      buffer_size_bytes := 0
      reports := [couldNotOpenMsg filename] }
  | some contents =>
    let size := if env.fstatOk then contents.length else env.fstatGarbage
    if env.mmapOk then
      { mmap_fd := 3
        mmapped_buffer := Ptr.region (mmapRegion contents size)
        buffer_size_bytes := size
        reports := [] }
    else
      { mmap_fd := 3
        mmapped_buffer := Ptr.mapFailed
        buffer_size_bytes := size
        reports := [mmapFailedMsg filename] }

/-- MMAPAllocation::base (allocation.h:75). -/
def MMAPState.base (s : MMAPState) : Ptr := s.mmapped_buffer

/-- MMAPAllocation::bytes (allocation.h:76). -/
def MMAPState.bytes (s : MMAPState) : Nat := s.buffer_size_bytes

/-- MMAPAllocation::valid (allocation.h:77). -/
def MMAPState.valid (s : MMAPState) : Bool := s.mmapped_buffer ≠ Ptr.mapFailed

/-- Resources released when an allocation object is destroyed. -/
structure ReleaseActions where
  /-- Whether the mapping was unmapped. -/
  unmapped : Bool
  /-- Whether the file descriptor was closed. -/
  fdClosed : Bool
  deriving DecidableEq, Repr

/-- Destruction of an MMAPAllocation as the code defines it: the
destructor declaration at allocation.h:74 is commented out, so the
implicitly generated destructor runs; its members are an int, a raw
pointer and a size_t, so it neither unmaps the mapping nor closes the
descriptor on any state. -/
def MMAPAllocation.destroy (_ : MMAPState) : ReleaseActions :=
  { unmapped := false, fdClosed := false }

/-- Fields of a FileCopyAllocation object after construction, together
with the emitted reports and the lifecycle of the scoped FILE handle
(allocation.h:130-133). -/
structure FileCopyState where
  /-- copied_buffer_; null until ownership of a filled buffer is
  transferred at the end of a fully successful construction. -/
  copied_buffer : Ptr
  /-- buffer_size_bytes_, default-initialized to 0. -/
  buffer_size_bytes : Nat
  /-- Messages emitted through error_reporter_ during construction. -/
  reports : List String
  /-- Whether fopen yielded a handle during construction. -/
  handleOpened : Bool
  /-- Whether that handle was closed before the constructor returned
  (the unique_ptr with fclose deleter closes it on scope exit). -/
  handleClosed : Bool
  deriving DecidableEq, Repr

/-- Constructor FileCopyAllocation::FileCopyAllocation
(allocation.h:91-123).  fopen the path (scoped handle, closed on every
exit path); on failure report and stop.  fstat the handle; on failure
report and stop.  Record st_size, allocate a buffer of that many bytes;
on allocation failure report and stop.  fread that many bytes; when fewer
arrive, report and stop, discarding the partial buffer.  On full success
transfer the filled buffer into copied_buffer_. -/
def FileCopyAllocation.construct (filename : String) (env : SysEnv) : FileCopyState :=
  match env.file with
  | none =>
    { copied_buffer := Ptr.null
      buffer_size_bytes := 0
      reports := [couldNotOpenMsg filename]
      handleOpened := false
      handleClosed := false }
  | some contents =>
    if !env.fstatOk then
      { copied_buffer := Ptr.null
        buffer_size_bytes := 0
        reports := [fstatFailedMsg filename]
        handleOpened := true
        handleClosed := true }
    else
      let size := contents.length
      if !env.allocOk then
        { copied_buffer := Ptr.null
          buffer_size_bytes := size
          reports := [mallocFailedMsg filename]
          handleOpened := true
          handleClosed := true }
      else
        let bytesRead := Nat.min size env.readAvail
        if bytesRead ≠ size then
          { copied_buffer := Ptr.null
            buffer_size_bytes := size
            reports := [shortReadMsg filename]
            handleOpened := true
            handleClosed := true }
        else
          { copied_buffer := Ptr.region (contents.take bytesRead)
            buffer_size_bytes := size
            reports := []
            handleOpened := true
            handleClosed := true }

/-- FileCopyAllocation::base (allocation.h:126). -/
def FileCopyState.base (s : FileCopyState) : Ptr := s.copied_buffer

/-- FileCopyAllocation::bytes (allocation.h:127). -/
def FileCopyState.bytes (s : FileCopyState) : Nat := s.buffer_size_bytes

/-- FileCopyAllocation::valid (allocation.h:128). -/
def FileCopyState.valid (s : FileCopyState) : Bool := s.copied_buffer ≠ Ptr.null

/-- The path occurs literally inside the message string. -/
def containsPath (msg filename : String) : Prop :=
  List.IsInfix filename.data msg.data

/-- The data of an appended string is the appended data. -/
lemma data_append_eq (a b : String) : (a ++ b).data = a.data ++ b.data := by
  cases a
  cases b
  rfl

/-- The open-failure message contains the path verbatim. -/
lemma containsPath_couldNotOpen (f : String) :
    containsPath (couldNotOpenMsg f) f := by
  refine ⟨("Could not open " ++ squote).data, (squote ++ ".").data, ?_⟩
  simp [couldNotOpenMsg, data_append_eq]

/-- Nominal environment on a missing path. -/
def envNoFile : SysEnv :=
  { file := none, fstatOk := true, fstatGarbage := 0, mmapOk := true,
    allocOk := true, readAvail := 0 }

/-- Environment with a 4-byte file whose status query fails, leaving a
garbage size of 2, and whose mapping request succeeds. -/
def envStatFail4 : SysEnv :=
  { file := some [1, 2, 3, 4], fstatOk := false, fstatGarbage := 2,
    mmapOk := true, allocOk := true, readAvail := 4 }

/-- Environment with a 2-byte file whose status query fails, leaving a
garbage size of 7, and whose mapping request succeeds. -/
def envStatFail2 : SysEnv :=
  { file := some [5, 6], fstatOk := false, fstatGarbage := 7,
    mmapOk := true, allocOk := true, readAvail := 2 }

/-- C1, counterexample: over a 4-byte file, when the unchecked fstat call
fails and leaves a garbage size of 2 and mmap then succeeds, the
MMAPAllocation is valid yet bytes() is 2, not 4, so a valid allocation
does not always report the true file length. -/
theorem C1_counterexample :
    envStatFail4.file = some [1, 2, 3, 4] ∧
    (MMAPAllocation.construct "model.bin" envStatFail4).valid = true ∧
    (MMAPAllocation.construct "model.bin" envStatFail4).bytes ≠ 4 := by
  decide

/-- C1, amended: for a file of N bytes, a valid FileCopyAllocation has
bytes() = N and base() holding exactly the file contents; the same holds
for a valid MMAPAllocation provided the size query succeeded (the
constructor does not check the fstat result). -/
theorem C1_valid_roundtrip (filename : String) (env : SysEnv)
    (contents : List Nat) (hfile : env.file = some contents) :
    (env.fstatOk = true →
      (MMAPAllocation.construct filename env).valid = true →
      (MMAPAllocation.construct filename env).bytes = contents.length ∧
      (MMAPAllocation.construct filename env).base = Ptr.region contents) ∧
    ((FileCopyAllocation.construct filename env).valid = true →
      (FileCopyAllocation.construct filename env).bytes = contents.length ∧
      (FileCopyAllocation.construct filename env).base = Ptr.region contents) := by
  constructor
  · intro hstat
    simp only [MMAPAllocation.construct, hfile, hstat, if_true]
    cases hm : env.mmapOk with
    | true =>
      intro _
      simp [MMAPState.bytes, MMAPState.base, mmapRegion]
    | false =>
      intro hv
      simp [MMAPState.valid] at hv
  · simp only [FileCopyAllocation.construct, hfile]
    cases hstat : env.fstatOk with
    | false =>
      intro hv
      simp [FileCopyState.valid] at hv
    | true =>
      cases halloc : env.allocOk with
      | false =>
        intro hv
        simp [FileCopyState.valid] at hv
      | true =>
        simp only [Bool.not_true, Bool.false_eq_true, if_false]
        by_cases hread : Nat.min contents.length env.readAvail = contents.length
        · simp only [hread, ne_eq, not_true_eq_false, if_false, if_neg]
          intro _
          constructor
          · rfl
          · simp [FileCopyState.base, hread]
        · intro hv
          simp only [if_pos hread, FileCopyState.valid] at hv
          simp at hv

/-- C1 witness: the amended round-trip property at a concrete 2-byte
file in a fault-free environment. -/
theorem C1_valid_roundtrip_witness :
    ((SysEnv.mk (some [5, 6]) true 0 true true 2).fstatOk = true →
      (MMAPAllocation.construct "m" (SysEnv.mk (some [5, 6]) true 0 true true 2)).valid = true →
      (MMAPAllocation.construct "m" (SysEnv.mk (some [5, 6]) true 0 true true 2)).bytes = 2 ∧
      (MMAPAllocation.construct "m" (SysEnv.mk (some [5, 6]) true 0 true true 2)).base =
        Ptr.region [5, 6]) ∧
    ((FileCopyAllocation.construct "m" (SysEnv.mk (some [5, 6]) true 0 true true 2)).valid = true →
      (FileCopyAllocation.construct "m" (SysEnv.mk (some [5, 6]) true 0 true true 2)).bytes = 2 ∧
      (FileCopyAllocation.construct "m" (SysEnv.mk (some [5, 6]) true 0 true true 2)).base =
        Ptr.region [5, 6]) :=
  C1_valid_roundtrip "m" (SysEnv.mk (some [5, 6]) true 0 true true 2) [5, 6] rfl

/-- C2, counterexample: in the MMAPAllocation constructor a size-query
failure (fstat failing on the open descriptor) is not a checked point of
failure: with a 2-byte file, a failing fstat leaving garbage size 7 and a
succeeding mmap, construction emits no report at all and valid() is
true, so this failure is captured neither by valid() nor by a message. -/
theorem C2_counterexample :
    envStatFail2.fstatOk = false ∧
    (MMAPAllocation.construct "model.bin" envStatFail2).valid = true ∧
    (MMAPAllocation.construct "model.bin" envStatFail2).reports = [] := by
  refine ⟨rfl, rfl, rfl⟩

/-- C2, amended: every failure the constructors check is captured by
valid() = false together with exactly one descriptive report: for
MMAPAllocation the open failure and the mmap failure; for
FileCopyAllocation the open failure, the size-query failure, the
allocation failure and the short read.  (MMAPAllocation ignores the
result of its size query, so that failure produces no report there.)
The constructors are total functions, so no exception escapes. -/
theorem C2_checked_failures (filename : String) (env : SysEnv) :
    (env.file = none →
      (MMAPAllocation.construct filename env).valid = false ∧
      (MMAPAllocation.construct filename env).reports = [couldNotOpenMsg filename]) ∧
    (env.file.isSome = true → env.mmapOk = false →
      (MMAPAllocation.construct filename env).valid = false ∧
      (MMAPAllocation.construct filename env).reports = [mmapFailedMsg filename]) ∧
    (env.file = none →
      (FileCopyAllocation.construct filename env).valid = false ∧
      (FileCopyAllocation.construct filename env).reports = [couldNotOpenMsg filename]) ∧
    (env.file.isSome = true → env.fstatOk = false →
      (FileCopyAllocation.construct filename env).valid = false ∧
      (FileCopyAllocation.construct filename env).reports = [fstatFailedMsg filename]) ∧
    (env.file.isSome = true → env.fstatOk = true → env.allocOk = false →
      (FileCopyAllocation.construct filename env).valid = false ∧
      (FileCopyAllocation.construct filename env).reports = [mallocFailedMsg filename]) ∧
    (∀ contents, env.file = some contents → env.fstatOk = true →
      env.allocOk = true → env.readAvail < contents.length →
      (FileCopyAllocation.construct filename env).valid = false ∧
      (FileCopyAllocation.construct filename env).reports = [shortReadMsg filename]) := by
  refine ⟨?_, ?_, ?_, ?_, ?_, ?_⟩
  · intro h
    simp [MMAPAllocation.construct, h, MMAPState.valid]
  · intro hsome hm
    rcases hc : env.file with _ | contents
    · simp [hc] at hsome
    · simp [MMAPAllocation.construct, hc, hm, MMAPState.valid]
  · intro h
    simp [FileCopyAllocation.construct, h, FileCopyState.valid]
  · intro hsome hstat
    rcases hc : env.file with _ | contents
    · simp [hc] at hsome
    · simp [FileCopyAllocation.construct, hc, hstat, FileCopyState.valid]
  · intro hsome hstat halloc
    rcases hc : env.file with _ | contents
    · simp [hc] at hsome
    · simp [FileCopyAllocation.construct, hc, hstat, halloc, FileCopyState.valid]
  · intro contents hc hstat halloc hshort
    have hmin : Nat.min contents.length env.readAvail ≠ contents.length := by
      have h1 : Nat.min contents.length env.readAvail = env.readAvail :=
        Nat.min_eq_right (Nat.le_of_lt hshort)
      omega
    simp [FileCopyAllocation.construct, hc, hstat, halloc, hmin, FileCopyState.valid]

/-- C2 witness: the amended claim applied at a concrete environment with
a 3-byte file delivering only 1 byte, discharging the short-read
hypotheses concretely. -/
theorem C2_checked_failures_witness :
    ((SysEnv.mk (some [9, 9, 9]) true 0 false true 1).file.isSome = true ∧
      (SysEnv.mk (some [9, 9, 9]) true 0 false true 1).mmapOk = false ∧
      (SysEnv.mk (some [9, 9, 9]) true 0 false true 1).readAvail < 3) ∧
    ((MMAPAllocation.construct "m" (SysEnv.mk (some [9, 9, 9]) true 0 false true 1)).valid = false ∧
      (MMAPAllocation.construct "m" (SysEnv.mk (some [9, 9, 9]) true 0 false true 1)).reports =
        [mmapFailedMsg "m"]) ∧
    ((FileCopyAllocation.construct "m"
        (SysEnv.mk (some [9, 9, 9]) true 0 false true 1)).valid = false ∧
      (FileCopyAllocation.construct "m"
        (SysEnv.mk (some [9, 9, 9]) true 0 false true 1)).reports = [shortReadMsg "m"]) :=
  ⟨⟨rfl, rfl, by decide⟩,
    (C2_checked_failures "m" (SysEnv.mk (some [9, 9, 9]) true 0 false true 1)).2.1 rfl rfl,
    (C2_checked_failures "m"
      (SysEnv.mk (some [9, 9, 9]) true 0 false true 1)).2.2.2.2.2 [9, 9, 9] rfl rfl rfl
      (by decide)⟩

/-- C3: over a nonexistent (unopenable) path both variants yield
valid() = false with exactly one report, the open-failure message, and
that message contains the path verbatim. -/
theorem C3_nonexistent_path (filename : String) (env : SysEnv)
    (h : env.file = none) :
    (MMAPAllocation.construct filename env).valid = false ∧
    (MMAPAllocation.construct filename env).reports = [couldNotOpenMsg filename] ∧
    (FileCopyAllocation.construct filename env).valid = false ∧
    (FileCopyAllocation.construct filename env).reports = [couldNotOpenMsg filename] ∧
    containsPath (couldNotOpenMsg filename) filename := by
  refine ⟨?_, ?_, ?_, ?_, containsPath_couldNotOpen filename⟩ <;>
    simp [MMAPAllocation.construct, FileCopyAllocation.construct, h,
      MMAPState.valid, FileCopyState.valid]

/-- C3 witness: the nonexistent-path behavior at a concrete path and
environment. -/
theorem C3_nonexistent_path_witness :
    envNoFile.file = none ∧
    ((MMAPAllocation.construct "model.bin" envNoFile).valid = false ∧
      (MMAPAllocation.construct "model.bin" envNoFile).reports =
        [couldNotOpenMsg "model.bin"] ∧
      (FileCopyAllocation.construct "model.bin" envNoFile).valid = false ∧
      (FileCopyAllocation.construct "model.bin" envNoFile).reports =
        [couldNotOpenMsg "model.bin"] ∧
      containsPath (couldNotOpenMsg "model.bin") "model.bin") :=
  ⟨rfl, C3_nonexistent_path "model.bin" envNoFile rfl⟩

/-- C4: a FileCopyAllocation construction whose read delivers fewer
bytes than the determined file size emits exactly the short-read report,
is invalid, and base() is the null pointer, not the partial buffer. -/
theorem C4_short_read (filename : String) (env : SysEnv)
    (contents : List Nat) (hfile : env.file = some contents)
    (hstat : env.fstatOk = true) (halloc : env.allocOk = true)
    (hshort : env.readAvail < contents.length) :
    (FileCopyAllocation.construct filename env).reports = [shortReadMsg filename] ∧
    (FileCopyAllocation.construct filename env).valid = false ∧
    (FileCopyAllocation.construct filename env).base = Ptr.null := by
  have hmin : Nat.min contents.length env.readAvail ≠ contents.length := by
    have h1 : Nat.min contents.length env.readAvail = env.readAvail :=
      Nat.min_eq_right (Nat.le_of_lt hshort)
    omega
  simp [FileCopyAllocation.construct, hfile, hstat, halloc, hmin,
    FileCopyState.valid, FileCopyState.base]

/-- C4 witness: the short-read behavior over a concrete 3-byte file that
delivers a single byte. -/
theorem C4_short_read_witness :
    ((SysEnv.mk (some [4, 5, 6]) true 0 true true 1).file = some [4, 5, 6] ∧
      (SysEnv.mk (some [4, 5, 6]) true 0 true true 1).readAvail < 3) ∧
    ((FileCopyAllocation.construct "m" (SysEnv.mk (some [4, 5, 6]) true 0 true true 1)).reports =
        [shortReadMsg "m"] ∧
      (FileCopyAllocation.construct "m"
        (SysEnv.mk (some [4, 5, 6]) true 0 true true 1)).valid = false ∧
      (FileCopyAllocation.construct "m"
        (SysEnv.mk (some [4, 5, 6]) true 0 true true 1)).base = Ptr.null) :=
  ⟨⟨rfl, by decide⟩,
    C4_short_read "m" (SysEnv.mk (some [4, 5, 6]) true 0 true true 1) [4, 5, 6]
      rfl rfl rfl (by decide)⟩

/-- Fault-free environment over a 1-byte file. -/
def envOneByte : SysEnv :=
  { file := some [7], fstatOk := true, fstatGarbage := 0, mmapOk := true,
    allocOk := true, readAvail := 1 }

/-- C5, failing input: an MMAPAllocation successfully constructed over an
existing 1-byte file holds an open descriptor and a live mapping, yet
destroying it releases neither: the destructor declaration at
allocation.h:74 is commented out, so the implicitly generated destructor
neither calls munmap nor close. -/
theorem C5_destructor_releases_nothing :
    (MMAPAllocation.construct "model.bin" envOneByte).valid = true ∧
    (MMAPAllocation.construct "model.bin" envOneByte).mmap_fd ≠ -1 ∧
    (MMAPAllocation.destroy
      (MMAPAllocation.construct "model.bin" envOneByte)).unmapped = false ∧
    (MMAPAllocation.destroy
      (MMAPAllocation.construct "model.bin" envOneByte)).fdClosed = false := by
  refine ⟨rfl, by decide, rfl, rfl⟩

/-- C6: a FileCopyAllocation over an existing empty file, with the size
query and the zero-byte buffer allocation succeeding, is valid with
bytes() = 0: emptiness is not an error. -/
theorem C6_empty_file (filename : String) (env : SysEnv)
    (hfile : env.file = some []) (hstat : env.fstatOk = true)
    (halloc : env.allocOk = true) :
    (FileCopyAllocation.construct filename env).valid = true ∧
    (FileCopyAllocation.construct filename env).bytes = 0 := by
  simp [FileCopyAllocation.construct, hfile, hstat, halloc,
    FileCopyState.valid, FileCopyState.bytes]

/-- C6 witness: the empty-file behavior at a concrete environment. -/
theorem C6_empty_file_witness :
    (SysEnv.mk (some []) true 0 true true 0).file = some [] ∧
    ((FileCopyAllocation.construct "m" (SysEnv.mk (some []) true 0 true true 0)).valid = true ∧
      (FileCopyAllocation.construct "m" (SysEnv.mk (some []) true 0 true true 0)).bytes = 0) :=
  ⟨rfl, C6_empty_file "m" (SysEnv.mk (some []) true 0 true true 0) rfl rfl rfl⟩

/-- C7: an MMAPAllocation is valid exactly when construction replaced the
MAP_FAILED sentinel with a real mapping, which happens exactly when the
open and the mmap call both succeeded; and when the open step fails,
bytes() is 0 (the size field keeps its default). -/
theorem C7_valid_iff_mapped (filename : String) (env : SysEnv) :
    ((MMAPAllocation.construct filename env).valid = true ↔
      env.file.isSome = true ∧ env.mmapOk = true) ∧
    (env.file = none → (MMAPAllocation.construct filename env).bytes = 0) := by
  rcases hc : env.file with _ | contents <;>
    cases hm : env.mmapOk <;>
      simp [MMAPAllocation.construct, hc, hm, MMAPState.valid, MMAPState.bytes]

/-- C7 witness: the validity characterization and zero size at a
concrete unopenable path. -/
theorem C7_valid_iff_mapped_witness :
    ((MMAPAllocation.construct "model.bin" envNoFile).valid = true ↔
      envNoFile.file.isSome = true ∧ envNoFile.mmapOk = true) ∧
    (envNoFile.file = none →
      (MMAPAllocation.construct "model.bin" envNoFile).bytes = 0) :=
  C7_valid_iff_mapped "model.bin" envNoFile

/-- C8: the scoped FILE handle of FileCopyAllocation is closed before the
constructor returns on every exit path on which it was opened (the
handle-closed flag always equals the handle-opened flag), and a handle is
opened exactly when the path is openable; the state retains no handle. -/
theorem C8_handle_scoped (filename : String) (env : SysEnv) :
    (FileCopyAllocation.construct filename env).handleClosed =
      (FileCopyAllocation.construct filename env).handleOpened ∧
    ((FileCopyAllocation.construct filename env).handleOpened = true ↔
      env.file.isSome = true) := by
  rcases hc : env.file with _ | contents <;>
    simp only [FileCopyAllocation.construct, hc] <;>
      [skip;
       cases hstat : env.fstatOk <;>
         [skip; cases halloc : env.allocOk] <;>
         [skip; skip;
          by_cases hread : Nat.min contents.length env.readAvail = contents.length]] <;>
    simp_all

/-- C8 witness: the handle lifecycle at a concrete fault-free
environment over a 1-byte file. -/
theorem C8_handle_scoped_witness :
    (FileCopyAllocation.construct "model.bin" envOneByte).handleClosed =
      (FileCopyAllocation.construct "model.bin" envOneByte).handleOpened ∧
    ((FileCopyAllocation.construct "model.bin" envOneByte).handleOpened = true ↔
      envOneByte.file.isSome = true) :=
  C8_handle_scoped "model.bin" envOneByte

/-- C9: once the size query has succeeded, a FileCopyAllocation that
fails later (allocation failure or short read) is invalid with bytes()
equal to the determined file size; a size-query failure or an open
failure leaves bytes() = 0. -/
theorem C9_bytes_after_size_query (filename : String) (env : SysEnv) :
    (∀ contents, env.file = some contents → env.fstatOk = true →
      (env.allocOk = false ∨ env.readAvail < contents.length) →
      (FileCopyAllocation.construct filename env).valid = false ∧
      (FileCopyAllocation.construct filename env).bytes = contents.length) ∧
    (∀ contents, env.file = some contents → env.fstatOk = false →
      (FileCopyAllocation.construct filename env).valid = false ∧
      (FileCopyAllocation.construct filename env).bytes = 0) ∧
    (env.file = none → (FileCopyAllocation.construct filename env).bytes = 0) := by
  refine ⟨?_, ?_, ?_⟩
  · intro contents hc hstat hfail
    cases hfail with
    | inl halloc =>
      simp [FileCopyAllocation.construct, hc, hstat, halloc,
        FileCopyState.valid, FileCopyState.bytes]
    | inr hshort =>
      have hmin : Nat.min contents.length env.readAvail ≠ contents.length := by
        have h1 : Nat.min contents.length env.readAvail = env.readAvail :=
          Nat.min_eq_right (Nat.le_of_lt hshort)
        omega
      cases halloc : env.allocOk <;>
        simp [FileCopyAllocation.construct, hc, hstat, halloc, hmin,
          FileCopyState.valid, FileCopyState.bytes]
  · intro contents hc hstat
    simp [FileCopyAllocation.construct, hc, hstat,
      FileCopyState.valid, FileCopyState.bytes]
  · intro hc
    simp [FileCopyAllocation.construct, hc, FileCopyState.bytes]

/-- C9 witness: after a successful size query over a concrete 3-byte
file, a short read leaves bytes() = 3 while valid() is false. -/
theorem C9_bytes_after_size_query_witness :
    ((SysEnv.mk (some [4, 5, 6]) true 0 true true 2).allocOk = false ∨
      (SysEnv.mk (some [4, 5, 6]) true 0 true true 2).readAvail < 3) ∧
    ((FileCopyAllocation.construct "m"
        (SysEnv.mk (some [4, 5, 6]) true 0 true true 2)).valid = false ∧
      (FileCopyAllocation.construct "m"
        (SysEnv.mk (some [4, 5, 6]) true 0 true true 2)).bytes = 3) :=
  ⟨Or.inr (by decide),
    (C9_bytes_after_size_query "m"
        (SysEnv.mk (some [4, 5, 6]) true 0 true true 2)).1 [4, 5, 6] rfl rfl
      (Or.inr (by decide))⟩

/-- An invalid FileCopyAllocation state exposes the null pointer. -/
lemma fileCopy_base_of_invalid (s : FileCopyState)
    (h : s.valid = false) : s.base = Ptr.null := by
  simpa [FileCopyState.valid, FileCopyState.base] using h

/-- An invalid MMAPAllocation state exposes the MAP_FAILED sentinel. -/
lemma mmap_base_of_invalid (s : MMAPState)
    (h : s.valid = false) : s.base = Ptr.mapFailed := by
  simpa [MMAPState.valid, MMAPState.base] using h

/-- C10: after any failed construction the two variants expose different
sentinels through base(): an invalid FileCopyAllocation returns the null
pointer, an invalid MMAPAllocation returns MAP_FAILED, and the two
sentinels are distinct values. -/
theorem C10_distinct_sentinels (filename : String) (env : SysEnv) :
    ((FileCopyAllocation.construct filename env).valid = false →
      (FileCopyAllocation.construct filename env).base = Ptr.null) ∧
    ((MMAPAllocation.construct filename env).valid = false →
      (MMAPAllocation.construct filename env).base = Ptr.mapFailed) ∧
    Ptr.mapFailed ≠ Ptr.null := by
  refine ⟨fileCopy_base_of_invalid _, mmap_base_of_invalid _, by decide⟩

/-- C10 witness: both sentinels observed over a concrete unopenable
path. -/
theorem C10_distinct_sentinels_witness :
    ((FileCopyAllocation.construct "model.bin" envNoFile).valid = false →
      (FileCopyAllocation.construct "model.bin" envNoFile).base = Ptr.null) ∧
    ((MMAPAllocation.construct "model.bin" envNoFile).valid = false →
      (MMAPAllocation.construct "model.bin" envNoFile).base = Ptr.mapFailed) ∧
    Ptr.mapFailed ≠ Ptr.null :=
  C10_distinct_sentinels "model.bin" envNoFile

end Tflite
